import Mathlib

/-!
Shallow embedding of `nc_lab4_functions.py`: thin wrappers around a GIS
toolkit (`SmartRaster.calculate_ndvi`, `SmartVectorLayer.summarize_field`,
`SmartVectorLayer.zonal_stats_to_field`, `SmartVectorLayer.save_as`,
`SmartVectorLayer.extract_to_pandas_df`).

Modelling choices:
- Attribute values are `Val`: a missing value (`vnone`, Python `None`),
  a not-a-number value (`vnan`, Python `float("nan")`), or a rational
  number (`vnum`) standing in for the numeric value.
- A feature table row (`FRow`) carries its object identifier (`oid`,
  the `OBJECTID` of the toolkit) and an association list of attribute
  values keyed by field name.
- External toolkit calls that the Python wraps in `try`/`except` can
  fail for environment reasons; each such failure point is a Boolean
  (or an `Except` outcome) in an environment record passed to the
  operation, so theorems quantify over all failure patterns.
- Stateful toolkit operations (`AddField`, `Delete`, the update cursor,
  `ZonalStatisticsAsTable`) are modelled by explicit state passing on
  `GState`, which holds the feature table and the in-memory temporary
  zonal-statistics table.
-/

namespace Lab4

/-- An attribute value of a feature table: missing (`None`), not-a-number
(`float("nan")`), or a number (modelled as a rational). -/
inductive Val where
  | vnone : Val
  | vnan : Val
  | vnum : ℚ → Val
deriving DecidableEq, Repr

/-- A field description as returned by `arcpy.ListFields`: a name and a
type string (for example `"DOUBLE"`, `"Geometry"`, `"OID"`). -/
structure Field where
  name : String
  ftype : String
deriving DecidableEq, Repr

/-- A feature-table row: the stable object identifier plus the attribute
values keyed by field name. -/
structure FRow where
  oid : Nat
  attrs : List (String × Val)
deriving DecidableEq, Repr

/-- A vector feature table: its field list and its rows. -/
structure Table where
  fields : List Field
  rows : List FRow
deriving DecidableEq, Repr

/-- The names of the table fields, as `[f.name for f in arcpy.ListFields(...)]`. -/
def Table.fieldNames (t : Table) : List String :=
  t.fields.map Field.name

/-- Read one attribute of a row by field name; the `OBJECTID` pseudo-field
reads the object identifier. -/
def FRow.getVal (r : FRow) (f : String) : Val :=
  if f = "OBJECTID" then Val.vnum (r.oid : ℚ) else (r.attrs.lookup f).getD Val.vnone

/-- Write one attribute of a row by field name (the update-cursor write). -/
def FRow.setVal (r : FRow) (f : String) (v : Val) : FRow :=
  { r with attrs := (f, v) :: r.attrs.filter (fun p => p.1 != f) }

/-- Environment for `summarize_field`: whether the `arcpy.ListFields`
call in the check block succeeds, and whether the `SearchCursor` read
succeeds (when the field exists). -/
structure SEnv where
  listFieldsOk : Bool
  readOk : Bool
deriving DecidableEq, Repr

/-- The `SearchCursor(self.feature_class, [field])` read of one field over
all rows: raises (returns `error`) when the cursor fails for environment
reasons or when the requested field is not a field of the table. -/
def readField (t : Table) (env : SEnv) (f : String) : Except String (List Val) :=
  if env.readOk && t.fieldNames.contains f then
    Except.ok (t.rows.map (fun r => r.getVal f))
  else
    Except.error "SearchCursor failed"

/-- The list-comprehension filter
`[row[0] for row in cursor if row[0] is not None and not math.isnan(row[0])]`:
keep the numeric values, dropping missing and not-a-number entries. -/
def cleanVals (vals : List Val) : List ℚ :=
  vals.filterMap (fun v =>
    match v with
    | Val.vnum q => some q
    | _ => none)

/-- `SmartVectorLayer.summarize_field`.  The check block returns
`(False, None)` only when `ListFields` succeeds and the field is absent;
a `ListFields` failure is only printed and execution falls through with
`okay` still `True`.  The mean block computes `sum(vals)/len(vals)` over
the cleaned values; an empty cleaned list raises `ZeroDivisionError`,
caught into `(False, None)`, as is a cursor failure. -/
def summarize_field (t : Table) (env : SEnv) (field : String) : Bool × Option ℚ :=
  if env.listFieldsOk && !(t.fieldNames.contains field) then
    (false, none)
  else
    match readField t env field with
    | Except.error _ => (false, none)
    | Except.ok vals =>
      let cleaned := cleanVals vals
      if cleaned.length = 0 then
        (false, none)
      else
        (true, some (cleaned.sum / (cleaned.length : ℚ)))

/-- Environment for `extract_to_pandas_df`: whether the `SearchCursor`
row extraction succeeds. -/
structure EEnv where
  cursorOk : Bool
deriving DecidableEq, Repr

/-- `[f.name for f in arcpy.ListFields(...) if f.type not in ('Geometry', 'OID')]`:
the non-geometry, non-identifier fields of the table. -/
def true_fields (t : Table) : List String :=
  (t.fields.filter (fun f => f.ftype != "Geometry" && f.ftype != "OID")).map Field.name

/-- `disallowed = [user_f for user_f in fields if user_f not in true_fields]`. -/
def disallowed_of (t : Table) (user : List String) : List String :=
  user.filter (fun f => !(true_fields t).contains f)

/-- The multi-field `SearchCursor` row extraction: one value tuple per row,
in the order of the requested fields; raises when the cursor fails for
environment reasons or some requested field is not a field of the table. -/
def readRows (t : Table) (env : EEnv) (fs : List String) : Except String (List (List Val)) :=
  if env.cursorOk && fs.all (fun f => t.fieldNames.contains f) then
    Except.ok (t.rows.map (fun r => fs.map (fun f => r.getVal f)))
  else
    Except.error "SearchCursor failed"

/-- A pandas dataframe as built by `pd.DataFrame(rows, columns=fields)`:
column names plus row-major values. -/
structure DF where
  columns : List String
  rows : List (List Val)
deriving DecidableEq, Repr

/-- `SmartVectorLayer.extract_to_pandas_df`.  With no field list, all
non-geometry, non-identifier fields are used; with a user list, any name
outside those fields aborts with `(False, None)`; otherwise the rows are
read and packed into a dataframe. -/
def extract_to_pandas_df (t : Table) (env : EEnv) (fields : Option (List String)) :
    Bool × Option DF :=
  match fields with
  | none =>
    let fs := true_fields t
    match readRows t env fs with
    | Except.error _ => (false, none)
    | Except.ok rws => (true, some ⟨fs, rws⟩)
  | some user =>
    if (disallowed_of t user).length ≠ 0 then
      (false, none)
    else
      match readRows t env user with
      | Except.error _ => (false, none)
      | Except.ok rws => (true, some ⟨user, rws⟩)

/-- State threaded through `zonal_stats_to_field`: the feature table and
the in-memory temporary table `in_memory\temp_zonal_stats` (whether it
exists and, when it does, its `OBJECTID_1` to statistic rows). -/
structure GState where
  table : Table
  tempExists : Bool
  tempRows : List (Nat × Val)
deriving DecidableEq, Repr

deriving instance DecidableEq for Except

/-- Environment for `zonal_stats_to_field`: success of the `ListFields`
call, of `AddField`, of `ZonalStatisticsAsTable` (with, on success, the
rows it writes to the temporary table), of the temporary-table read, and
of the update cursor. -/
structure ZEnv where
  listFieldsOk : Bool
  addFieldOk : Bool
  zonalOutcome : Except String (List (Nat × Val))
  readTempOk : Bool
  updateOk : Bool
deriving DecidableEq, Repr

/-- `arcpy.management.AddField(self.feature_class, output_field, "DOUBLE")`. -/
def addField (t : Table) (output_field : String) : Table :=
  { t with fields := t.fields ++ [⟨output_field, "DOUBLE"⟩] }

/-- The step-4 update cursor: for each feature, when its `OBJECTID` is a
key of the zonal-results mapping, write the mapped statistic into the
output field; otherwise leave the row unchanged. -/
def update_rows (t : Table) (results : List (Nat × Val)) (output_field : String) : Table :=
  { t with rows := t.rows.map (fun r =>
      match results.lookup r.oid with
      | some v => r.setVal output_field v
      | none => r) }

/-- `SmartVectorLayer.zonal_stats_to_field`; returns the Python return
value (the bare `okay` flag) together with the resulting state.
Step 1: list the fields; when the output field already exists only a
message is printed (field creation is skipped) and execution continues,
otherwise `AddField` is attempted; a raise in this block returns `False`.
Step 2: delete any stale temporary table, then compute zonal statistics
into it; a raise returns `False` (after the stale delete).
Step 3: read the temporary table; a raise returns `False` leaving the
temporary table in place.
Step 4: update the feature table from the results mapping; a raise
returns `False` leaving the temporary table in place.
Step 5: delete the temporary table and return `True`. -/
def zonal_stats_to_field (s : GState) (env : ZEnv)
    (raster_path statistic_type output_field : String) : Bool × GState :=
  if !env.listFieldsOk then
    (false, s)
  else
    let field_exists := s.table.fieldNames.contains output_field
    if !field_exists && !env.addFieldOk then
      (false, s)
    else
      let s1 := if field_exists then s else { s with table := addField s.table output_field }
      let s2 := { s1 with tempExists := false, tempRows := [] }
      match env.zonalOutcome with
      | Except.error _ => (false, s2)
      | Except.ok rws =>
        let s3 := { s2 with tempExists := true, tempRows := rws }
        if !env.readTempOk then
          (false, s3)
        else if !env.updateOk then
          (false, s3)
        else
          let s4 := { s3 with table := update_rows s3.table rws output_field }
          (true, { s4 with tempExists := false, tempRows := [] })

/-- `SmartVectorLayer.save_as`: `arcpy.management.CopyFeatures` copies the
feature table to the output path; the store maps paths to tables.  The
method itself returns `None`. -/
def save_as (store : List (String × Table)) (t : Table) (output_path : String) :
    List (String × Table) :=
  (output_path, t) :: store

/-- A multi-band raster: the pixel sequences of its bands, 1-based in the
toolkit's addressing.  Rationals stand in for the pixel values. -/
structure SRaster where
  bands : List (List ℚ)
deriving DecidableEq, Repr

/-- Environment for `calculate_ndvi`: whether the two
`arcpy.Raster(path + "/Band_i")` loads succeed when the band exists. -/
structure REnv where
  band4Ok : Bool
  band3Ok : Bool
deriving DecidableEq, Repr

/-- Load one band by 1-based index: raises when the load fails for
environment reasons or the index is out of the raster's band range. -/
def loadBand (r : SRaster) (ok : Bool) (idx : Nat) : Except String (List ℚ) :=
  if ok && decide (1 ≤ idx) && decide (idx ≤ r.bands.length) then
    Except.ok (r.bands.getD (idx - 1) [])
  else
    Except.error "band load failed"

/-- `arcpy.sa.Minus` on two bands, pixelwise. -/
def rminus (a b : List ℚ) : List ℚ :=
  List.zipWith (fun x y => x - y) a b

/-- `arcpy.sa.Plus` on two bands, pixelwise. -/
def rplus (a b : List ℚ) : List ℚ :=
  List.zipWith (fun x y => x + y) a b

/-- `arcpy.sa.Divide` on two floating-point bands, pixelwise; a zero
denominator yields the NoData pixel (`none`) rather than raising. -/
def rdivide (a b : List ℚ) : List (Option ℚ) :=
  List.zipWith (fun x y => if y = 0 then none else some (x / y)) a b

/-- The payload of `calculate_ndvi`: the NDVI raster on success, the
captured exception on failure. -/
inductive NdviRet where
  | raster : List (Option ℚ) → NdviRet
  | err : String → NdviRet
deriving DecidableEq, Repr

/-- `SmartRaster.calculate_ndvi`: load the NIR band then the Red band by
1-based index, compute `Divide(Float(nir - red), Float(nir + red))`, and
return `(True, ndvi)`; any raise in the block is caught and returned as
`(False, e)`. -/
def calculate_ndvi (r : SRaster) (env : REnv) (band4_index band3_index : Nat) :
    Bool × NdviRet :=
  match loadBand r env.band4Ok band4_index with
  | Except.error e => (false, NdviRet.err e)
  | Except.ok nir =>
    match loadBand r env.band3Ok band3_index with
    | Except.error e => (false, NdviRet.err e)
    | Except.ok red =>
      let numerator := rminus nir red
      let denominator := rplus nir red
      (true, NdviRet.raster (rdivide numerator denominator))

/-- `calculate_ndvi` at its Python default arguments
`band4_index = 4, band3_index = 3`. -/
def calculate_ndvi_default (r : SRaster) (env : REnv) : Bool × NdviRet :=
  calculate_ndvi r env 4 3

/-- Modelled from the spec: the NDVI formula `(NIR − Red) / (NIR + Red)`
stated pixelwise, with NoData where `NIR + Red = 0`; compared against the
code's composition of `Minus`, `Plus` and `Divide`. -/
def ndviSpecFormula (nir red : List ℚ) : List (Option ℚ) :=
  List.zipWith (fun n r => if n + r = 0 then none else some ((n - r) / (n + r))) nir red

/-- The shape of a caller-visible Python return value: a
`(flag, payload)` 2-tuple, a bare Boolean flag, or `None` (no `return`
statement). -/
inductive PyRet where
  | flagPair : Bool → PyRet
  | flagOnly : Bool → PyRet
  | unitRet : PyRet
deriving DecidableEq, Repr

/-- Whether a return value is a `(flag, payload)` 2-tuple. -/
def PyRet.isFlagPair : PyRet → Bool
  | PyRet.flagPair _ => true
  | _ => false

/-- The return shape of `summarize_field` (`return okay, mean` and both
`return False, None` and `return okay, None` sites are 2-tuples). -/
def summarize_field_ret (t : Table) (env : SEnv) (field : String) : PyRet :=
  PyRet.flagPair (summarize_field t env field).1

/-- The return shape of `extract_to_pandas_df` (`return okay, df` and the
`return okay, None` sites are 2-tuples). -/
def extract_ret (t : Table) (env : EEnv) (fields : Option (List String)) : PyRet :=
  PyRet.flagPair (extract_to_pandas_df t env fields).1

/-- The return shape of `calculate_ndvi` (`return okay, ndvi` and
`return okay, e` are 2-tuples). -/
def calculate_ndvi_ret (r : SRaster) (env : REnv) (band4_index band3_index : Nat) : PyRet :=
  PyRet.flagPair (calculate_ndvi r env band4_index band3_index).1

/-- The return shape of `zonal_stats_to_field`: every `return okay` site
returns the bare flag, never a 2-tuple. -/
def zonal_stats_ret (s : GState) (env : ZEnv)
    (raster_path statistic_type output_field : String) : PyRet :=
  PyRet.flagOnly (zonal_stats_to_field s env raster_path statistic_type output_field).1

/-- The return shape of `save_as`: no `return` statement, so the call
returns `None`. -/
def save_as_ret (store : List (String × Table)) (t : Table) (output_path : String) : PyRet :=
  PyRet.unitRet

/-! Concrete fixtures used by witnesses and counterexamples. -/

/-- A small feature table that already has a `ZonalStat` field. -/
def exTable1 : Table :=
  ⟨[⟨"OBJECTID", "OID"⟩, ⟨"Shape", "Geometry"⟩, ⟨"area", "DOUBLE"⟩, ⟨"ZonalStat", "DOUBLE"⟩],
   [⟨1, [("area", Val.vnum 10), ("ZonalStat", Val.vnum 0)]⟩]⟩

/-- Initial state over `exTable1` with no temporary table present. -/
def exState1 : GState := ⟨exTable1, false, []⟩

/-- A fully successful zonal environment producing the statistic `7` for
the feature with identifier `1`. -/
def exZEnvOk : ZEnv := ⟨true, true, Except.ok [(1, Val.vnum 7)], true, true⟩

/-- A zonal environment in which only the step-4 update cursor raises. -/
def exZEnvUpdFail : ZEnv := ⟨true, true, Except.ok [(1, Val.vnum 7)], true, false⟩

/-- A feature table with a single numeric field `x`. -/
def exTable3 : Table :=
  ⟨[⟨"OBJECTID", "OID"⟩, ⟨"x", "DOUBLE"⟩], [⟨1, [("x", Val.vnum 2)]⟩]⟩

/-- A summarize environment whose `ListFields` call raises. -/
def exSEnvNoList : SEnv := ⟨false, true⟩

/-- A summarize environment whose cursor read raises. -/
def exSEnvNoRead : SEnv := ⟨true, false⟩

/-- A fully successful summarize environment. -/
def exSEnvOk : SEnv := ⟨true, true⟩

/-- A fully successful extract environment. -/
def exEEnvOk : EEnv := ⟨true⟩

/-- The spec's example field: values `[1, None, 3, NaN, 5]`. -/
def exTable5 : Table :=
  ⟨[⟨"OBJECTID", "OID"⟩, ⟨"val", "DOUBLE"⟩],
   [⟨1, [("val", Val.vnum 1)]⟩, ⟨2, [("val", Val.vnone)]⟩, ⟨3, [("val", Val.vnum 3)]⟩,
    ⟨4, [("val", Val.vnan)]⟩, ⟨5, [("val", Val.vnum 5)]⟩]⟩

/-- A feature table whose field `v` holds only missing and NaN values. -/
def exTable9 : Table :=
  ⟨[⟨"OBJECTID", "OID"⟩, ⟨"v", "DOUBLE"⟩],
   [⟨1, [("v", Val.vnone)]⟩, ⟨2, [("v", Val.vnan)]⟩]⟩

/-! Helper lemmas shared by the claim theorems. -/

/-- `summarize_field` reports `(False, None)` whenever the cursor read
raises or the field is absent from the table. -/
theorem summarize_field_fail (t : Table) (env : SEnv) (field : String)
    (h : env.readOk = false ∨ t.fieldNames.contains field = false) :
    summarize_field t env field = (false, none) := by
  unfold summarize_field readField
  rcases h with h | h <;> cases hl : env.listFieldsOk <;>
    cases hc : t.fieldNames.contains field <;> simp_all

/-- Unfold `List.contains` to membership. -/
theorem contains_eq_mem (l : List String) (f : String) :
    l.contains f = true ↔ f ∈ l := by
  simp only [List.contains]
  exact List.elem_iff

/-- Every name in `true_fields` is a field name of the table. -/
theorem contains_of_true_fields (t : Table) (f : String)
    (h : (true_fields t).contains f = true) : t.fieldNames.contains f = true := by
  rw [contains_eq_mem] at h
  simp only [true_fields, List.mem_map, List.mem_filter] at h
  obtain ⟨fl, ⟨hmem, _⟩, hname⟩ := h
  rw [contains_eq_mem]
  simp only [Table.fieldNames, List.mem_map]
  exact ⟨fl, hmem, hname⟩

/-- The default field list passes the cursor's field check. -/
theorem all_true_fields (t : Table) :
    (true_fields t).all (fun f => t.fieldNames.contains f) = true := by
  rw [List.all_eq_true]
  intro f hf
  exact contains_of_true_fields t f ((contains_eq_mem _ f).2 hf)

/-- A user field list with no disallowed entry passes the cursor's field
check. -/
theorem all_of_disallowed_nil (t : Table) (user : List String)
    (h : disallowed_of t user = []) :
    user.all (fun f => t.fieldNames.contains f) = true := by
  rw [List.all_eq_true]
  intro f hf
  have hmem := (List.filter_eq_nil_iff.1 h) f hf
  simp only [Bool.not_eq_true'] at hmem
  exact contains_of_true_fields t f (by simpa using hmem)

/-- The code's `Divide(Float(nir - red), Float(nir + red))` composition
equals the spec's pixelwise NDVI formula. -/
theorem rdivide_minus_plus (a b : List ℚ) :
    rdivide (rminus a b) (rplus a b) = ndviSpecFormula a b := by
  induction a generalizing b with
  | nil => cases b <;> rfl
  | cons x xs ih =>
    cases b with
    | nil => rfl
    | cons y ys =>
      simp only [rdivide, rminus, rplus, ndviSpecFormula, List.zipWith_cons_cons]
      exact congrArg _ (ih ys)

/-! Claim theorems. -/

/-- C1 counterexample: on a table whose `ZonalStat` field already exists,
`zonal_stats_to_field` with `output_field = "ZonalStat"` does not abort:
it returns a `true` success flag and mutates the feature table,
overwriting the existing field's values. -/
theorem C1_counterexample :
    exState1.table.fieldNames.contains "ZonalStat" = true ∧
    (zonal_stats_to_field exState1 exZEnvOk "r" "MEAN" "ZonalStat").1 = true ∧
    (zonal_stats_to_field exState1 exZEnvOk "r" "MEAN" "ZonalStat").2.table ≠
      exState1.table := by
  decide

/-- C1 (amended): when the output field already exists, only the field
creation is skipped — the field list is never changed (no duplicate, no
rename) — and the call proceeds: when every later step succeeds it
overwrites the existing field with the zonal results and returns `True`. -/
theorem C1_existing_field_overwritten (s : GState) (env : ZEnv) (rp st out : String)
    (hout : s.table.fieldNames.contains out = true) :
    (zonal_stats_to_field s env rp st out).2.table.fields = s.table.fields ∧
    ∀ rws, env.listFieldsOk = true → env.zonalOutcome = Except.ok rws →
      env.readTempOk = true → env.updateOk = true →
      zonal_stats_to_field s env rp st out =
        (true, ⟨update_rows s.table rws out, false, []⟩) := by
  obtain ⟨lf, af, zo, rt, up⟩ := env
  cases lf <;> cases af <;> cases zo <;> cases rt <;> cases up <;>
    simp_all [zonal_stats_to_field, update_rows, addField]

/-- C1 witness: a concrete run in which the existing `ZonalStat` field is
overwritten and the call reports success. -/
theorem C1_witness :
    exState1.table.fieldNames.contains "ZonalStat" = true ∧
    zonal_stats_to_field exState1 exZEnvOk "r" "MEAN" "ZonalStat" =
      (true, ⟨update_rows exState1.table [(1, Val.vnum 7)] "ZonalStat", false, []⟩) :=
  ⟨by decide,
    (C1_existing_field_overwritten exState1 exZEnvOk "r" "MEAN" "ZonalStat" (by decide)).2
      [(1, Val.vnum 7)] (by decide) (by decide) (by decide) (by decide)⟩

/-- C2 counterexample: when the step-4 update cursor raises, the call
returns `False` and the temporary zonal-statistics table is left behind,
so the temporary table is not deleted on every execution. -/
theorem C2_counterexample :
    (zonal_stats_to_field exState1 exZEnvUpdFail "r" "MEAN" "zs2").1 = false ∧
    (zonal_stats_to_field exState1 exZEnvUpdFail "r" "MEAN" "zs2").2.tempExists = true := by
  decide

/-- C2 (amended): on the success path the temporary table is always
deleted (and any stale temporary table is deleted before computation);
only failures after the table's creation can leave it behind. -/
theorem C2_temp_deleted_on_success (s : GState) (env : ZEnv) (rp st out : String)
    (h : (zonal_stats_to_field s env rp st out).1 = true) :
    (zonal_stats_to_field s env rp st out).2.tempExists = false ∧
    (zonal_stats_to_field s env rp st out).2.tempRows = [] := by
  obtain ⟨lf, af, zo, rt, up⟩ := env
  cases hfe : s.table.fieldNames.contains out <;>
    cases lf <;> cases af <;> cases zo <;> cases rt <;> cases up <;>
    simp_all [zonal_stats_to_field]

/-- C2 witness: a concrete successful run after which no temporary table
remains. -/
theorem C2_witness :
    (zonal_stats_to_field exState1 exZEnvOk "r" "MEAN" "ZonalStat").2.tempExists = false ∧
    (zonal_stats_to_field exState1 exZEnvOk "r" "MEAN" "ZonalStat").2.tempRows = [] :=
  C2_temp_deleted_on_success exState1 exZEnvOk "r" "MEAN" "ZonalStat" (by decide)

/-- C3 counterexample: when the `ListFields` existence check raises but
the cursor read succeeds, `summarize_field` returns a `true` flag with a
value — an existence-check failure reported as a success. -/
theorem C3_counterexample :
    exSEnvNoList.listFieldsOk = false ∧
    (summarize_field exTable3 exSEnvNoList "x").1 = true ∧
    (summarize_field exTable3 exSEnvNoList "x").2 ≠ none := by
  decide

/-- C3 (amended): a failure during the value read is reported as
`(False, None)`, as is a field found absent; a failure during the
existence check alone is only logged and execution continues. -/
theorem C3_read_failure_flagged (t : Table) (env : SEnv) (field : String)
    (h : env.readOk = false ∨ t.fieldNames.contains field = false) :
    summarize_field t env field = (false, none) :=
  summarize_field_fail t env field h

/-- C3 witness: a concrete cursor-read failure reported as `(False, None)`. -/
theorem C3_witness : summarize_field exTable3 exSEnvNoRead "x" = (false, none) :=
  C3_read_failure_flagged exTable3 exSEnvNoRead "x" (Or.inl (by decide))

/-- C4 counterexample: `zonal_stats_to_field` returns a bare Boolean flag
(not a `(flag, payload)` 2-tuple) and `save_as` returns `None`, so not
every public operation uses the pair convention. -/
theorem C4_counterexample :
    PyRet.isFlagPair (zonal_stats_ret exState1 exZEnvOk "r" "MEAN" "ZonalStat") = false ∧
    save_as_ret [] exTable1 "out" = PyRet.unitRet := by
  decide

/-- C4 (amended): `summarize_field`, `extract_to_pandas_df` and
`calculate_ndvi` report through `(flag, result-or-None)` pairs, but
`zonal_stats_to_field` returns only the bare flag and `save_as` returns
nothing. -/
theorem C4_return_shapes (t : Table) (senv : SEnv) (f : String) (eenv : EEnv)
    (fields : Option (List String)) (r : SRaster) (renv : REnv) (i4 i3 : Nat)
    (s : GState) (zenv : ZEnv) (rp st out : String)
    (store : List (String × Table)) (p : String) :
    PyRet.isFlagPair (summarize_field_ret t senv f) = true ∧
    PyRet.isFlagPair (extract_ret t eenv fields) = true ∧
    PyRet.isFlagPair (calculate_ndvi_ret r renv i4 i3) = true ∧
    zonal_stats_ret s zenv rp st out =
      PyRet.flagOnly (zonal_stats_to_field s zenv rp st out).1 ∧
    save_as_ret store t p = PyRet.unitRet :=
  ⟨rfl, rfl, rfl, rfl, rfl⟩

/-- C5: for a field present in the table whose cursor read succeeds and
with at least one numeric value, `summarize_field` returns the arithmetic
mean of the values remaining after dropping missing and not-a-number
entries. -/
theorem C5_mean_excludes_missing (t : Table) (env : SEnv) (field : String)
    (hf : t.fieldNames.contains field = true) (hr : env.readOk = true)
    (hne : cleanVals (t.rows.map (fun r => r.getVal field)) ≠ []) :
    summarize_field t env field =
      (true, some ((cleanVals (t.rows.map (fun r => r.getVal field))).sum /
        ((cleanVals (t.rows.map (fun r => r.getVal field))).length : ℚ))) := by
  have hmem : field ∈ t.fieldNames := (contains_eq_mem _ _).1 hf
  unfold summarize_field readField
  simp [hf, hr, hmem, List.length_eq_zero, hne]

/-- C5 witness: the spec's example — field values `[1, None, 3, NaN, 5]`
give the mean `3`. -/
theorem C5_witness : summarize_field exTable5 exSEnvOk "val" = (true, some 3) := by
  have h := C5_mean_excludes_missing exTable5 exSEnvOk "val" (by decide) (by decide) (by decide)
  rw [h]
  rw [show cleanVals (exTable5.rows.map (fun r => r.getVal "val")) = [1, 3, 5] from by decide]
  norm_num

/-- C6: for a field name absent from the table, `summarize_field` and
`extract_to_pandas_df` both return `(False, None)`, under every
environment (so no exception escapes either call). -/
theorem C6_absent_field_flagged (t : Table) (senv : SEnv) (eenv : EEnv) (field : String)
    (h : t.fieldNames.contains field = false) :
    summarize_field t senv field = (false, none) ∧
    extract_to_pandas_df t eenv (some [field]) = (false, none) := by
  refine ⟨summarize_field_fail t senv field (Or.inr h), ?_⟩
  have hnm : field ∉ true_fields t := by
    intro hm
    have h2 := contains_of_true_fields t field ((contains_eq_mem _ _).2 hm)
    rw [h] at h2
    exact Bool.noConfusion h2
  unfold extract_to_pandas_df
  simp [disallowed_of, hnm]

/-- C6 witness: the absent field `"nope"` is flagged by both calls. -/
theorem C6_witness :
    summarize_field exTable3 exSEnvOk "nope" = (false, none) ∧
    extract_to_pandas_df exTable3 exEEnvOk (some ["nope"]) = (false, none) :=
  C6_absent_field_flagged exTable3 exSEnvOk exEEnvOk "nope" (by decide)

/-- C7: a user field list with any disallowed entry aborts the whole
extraction with `(False, None)` — all-or-nothing validation. -/
theorem C7_invalid_fields_abort (t : Table) (env : EEnv) (user : List String)
    (h : disallowed_of t user ≠ []) :
    extract_to_pandas_df t env (some user) = (false, none) := by
  unfold extract_to_pandas_df
  simp [List.length_eq_zero, h]

/-- C7 witness: `extract_to_pandas_df (["bogus_field"])` fails with no
dataframe, and the computed disallowed list is exactly `["bogus_field"]`. -/
theorem C7_witness :
    disallowed_of exTable3 ["bogus_field"] = ["bogus_field"] ∧
    extract_to_pandas_df exTable3 exEEnvOk (some ["bogus_field"]) = (false, none) :=
  ⟨by decide, C7_invalid_fields_abort exTable3 exEEnvOk ["bogus_field"] (by decide)⟩

/-- C8: `calculate_ndvi` at its defaults selects bands 4 (NIR) and 3
(Red); on successful loads it returns `True` with the pixelwise
`(NIR − Red) / (NIR + Red)` raster, and a load failure is caught and
returned as `False` with the captured error. -/
theorem C8_ndvi (r : SRaster) (env : REnv) :
    calculate_ndvi_default r env =
      match loadBand r env.band4Ok 4, loadBand r env.band3Ok 3 with
      | Except.ok nir, Except.ok red => (true, NdviRet.raster (ndviSpecFormula nir red))
      | Except.error e, _ => (false, NdviRet.err e)
      | Except.ok _, Except.error e => (false, NdviRet.err e) := by
  unfold calculate_ndvi_default calculate_ndvi
  cases h4 : loadBand r env.band4Ok 4 with
  | error e => rfl
  | ok nir =>
    cases h3 : loadBand r env.band3Ok 3 with
    | error e => rfl
    | ok red => simp [rdivide_minus_plus]

/-- C9: for a field present in the table whose values are all missing or
not-a-number, the zero-count division raises and is caught:
`summarize_field` returns `(False, None)` rather than raising. -/
theorem C9_all_missing_flagged (t : Table) (env : SEnv) (field : String)
    (hf : t.fieldNames.contains field = true) (hr : env.readOk = true)
    (he : cleanVals (t.rows.map (fun r => r.getVal field)) = []) :
    summarize_field t env field = (false, none) := by
  have hmem : field ∈ t.fieldNames := (contains_eq_mem _ _).1 hf
  unfold summarize_field readField
  simp [hf, hr, hmem, he]

/-- C9 witness: a field holding only `None` and `NaN` values is reported
as `(False, None)`. -/
theorem C9_witness : summarize_field exTable9 exSEnvOk "v" = (false, none) :=
  C9_all_missing_flagged exTable9 exSEnvOk "v" (by decide) (by decide) (by decide)

/-- C10: every successful extraction returns a dataframe whose columns
are exactly the validated field list (the user list in its given order,
or all non-geometry, non-identifier fields by default) with one row per
feature record. -/
theorem C10_extract_shape (t : Table) (env : EEnv) (hc : env.cursorOk = true) :
    (extract_to_pandas_df t env none =
        (true, some ⟨true_fields t,
          t.rows.map (fun r => (true_fields t).map (fun f => r.getVal f))⟩) ∧
      (t.rows.map (fun r => (true_fields t).map (fun f => r.getVal f))).length =
        t.rows.length) ∧
    ∀ user, disallowed_of t user = [] →
      extract_to_pandas_df t env (some user) =
        (true, some ⟨user, t.rows.map (fun r => user.map (fun f => r.getVal f))⟩) ∧
      (t.rows.map (fun r => user.map (fun f => r.getVal f))).length = t.rows.length := by
  constructor
  · refine ⟨?_, List.length_map _ _⟩
    simp only [extract_to_pandas_df, readRows, hc, all_true_fields t, Bool.and_self, if_true]
  · intro user hu
    refine ⟨?_, List.length_map _ _⟩
    simp only [extract_to_pandas_df, readRows, hc, all_of_disallowed_nil t user hu, hu,
      Bool.and_self, List.length_nil, ne_eq, if_true]
    simp

/-- C10 witness: extracting the single field `"area"` yields a one-column,
one-row dataframe. -/
theorem C10_witness :
    extract_to_pandas_df exTable1 exEEnvOk (some ["area"]) =
      (true, some ⟨["area"], [[Val.vnum 10]]⟩) := by
  have h := ((C10_extract_shape exTable1 exEEnvOk (by decide)).2 ["area"] (by decide)).1
  rw [h]
  decide

end Lab4
